import Mathlib

/-
Verification of the puzzle-products-importer reconciliation core.

The definitions below are a shallow embedding of src/csv_handler.py and
src/main.py.  Pure Python functions become Lean functions; the GraphQL
gateway becomes an abstract response environment (a record of functions);
the sequence of gateway calls and reconciliation outcomes is made explicit
as a trace of events.  Python exceptions become Except values.
-/

namespace PuzzleProducts

/-- Status enum from puzzle.enums, as used by csv_handler.ParsedRow. -/
inductive ProductStatusEnum where
  | ACTIVE
  | COMPLETED
  | CANCELED
deriving DecidableEq

/-- Kind enum from puzzle.enums (GROUP or PRODUCT). -/
inductive ProductKind where
  | GROUP
  | PRODUCT
deriving DecidableEq

/-- Model of puzzle.base_model.Upload: the resolved thumbnail attachment.
The file content handle is not observable; filename and content type are. -/
structure Upload where
  filename : String
  content_type : String
deriving DecidableEq

/-- Model of csv_handler.CsvRow: a pydantic-validated row, all eight columns
present as strings. -/
structure CsvRow where
  path : String
  code : String
  awarded : String
  due : String
  picture : String
  deliverable : String
  status : String
  tags : String
deriving DecidableEq

/-- Model of one raw row as produced by csv.DictReader: a column may be
missing (None), in which case pydantic validation of CsvRow fails. -/
structure RawRow where
  path : Option String
  code : Option String
  awarded : Option String
  due : Option String
  picture : Option String
  deliverable : Option String
  status : Option String
  tags : Option String
deriving DecidableEq

/-- Pydantic validation of a raw row: succeeds exactly when every column is
present (CsvRow requires all eight fields as str). -/
def validateRow (r : RawRow) : Option CsvRow :=
  match r.path, r.code, r.awarded, r.due, r.picture, r.deliverable, r.status, r.tags with
  | some p, some c, some a, some d, some pc, some de, some st, some tg =>
      some ⟨p, c, a, d, pc, de, st, tg⟩
  | _, _, _, _, _, _, _, _ => none

/-- Python exceptions that can escape the per-row handler in parse_csv_file
(they are not pydantic ValidationError, so the inner except does not catch
them and the whole parse aborts). -/
inductive PyErr where
  | valueError
  | attributeError
deriving DecidableEq

/-- Whitespace characters stripped by Python str.strip and int(str). -/
def isPySpace (c : Char) : Bool :=
  c = ' ' ∨ c = '\t' ∨ c = '\n' ∨ c = '\r' ∨ c = '\x0b' ∨ c = '\x0c'

/-- Model of Python str.strip(): remove leading and trailing whitespace. -/
def pyStrip (s : String) : String :=
  String.mk (((s.data.dropWhile isPySpace).reverse.dropWhile isPySpace).reverse)

/-- Model of Python str.upper() on ASCII text. -/
def pyUpper (s : String) : String :=
  String.mk (s.data.map (fun c =>
    if 'a' ≤ c ∧ c ≤ 'z' then Char.ofNat (c.toNat - 32) else c))

/-- Helper for pySplit: accumulate the current field, cut at each
separator. -/
def pySplitGo (sep : Char) : List Char → List Char → List (List Char)
  | [], acc => [acc.reverse]
  | c :: rest, acc =>
      if c = sep then acc.reverse :: pySplitGo sep rest []
      else pySplitGo sep rest (c :: acc)

/-- Model of Python str.split(sep) with a one-character separator: the
empty string yields one empty field, consecutive separators yield empty
fields, fields keep their order. -/
def pySplit (s : String) (sep : Char) : List String :=
  (pySplitGo sep s.data []).map String.mk

/-- Body of a Python int literal after the optional sign: digits with single
underscores allowed between digits (the grammar accepted by int(str)). -/
def digitsUnd : List Char → Bool
  | [] => true
  | '_' :: c :: rest => c.isDigit && digitsUnd rest
  | c :: rest => c.isDigit && digitsUnd rest

/-- Digit sequence is nonempty, starts with a digit, and obeys digitsUnd. -/
def validIntBody (cs : List Char) : Bool :=
  match cs with
  | [] => false
  | c :: rest => c.isDigit && digitsUnd rest

/-- Numeric value of a digit list (underscores removed beforehand). -/
def natOfDigits (cs : List Char) : Nat :=
  cs.foldl (fun a c => 10 * a + (c.toNat - 48)) 0

/-- Model of Python int(str): optional surrounding whitespace, optional
sign, then digits with single underscores between digits; none models the
ValueError raised for any other shape. -/
def pyInt (s : String) : Option Int :=
  let cs := (pyStrip s).data
  match cs with
  | '+' :: rest =>
      if validIntBody rest then some (Int.ofNat (natOfDigits (rest.filter (fun c => c ≠ '_'))))
      else none
  | '-' :: rest =>
      if validIntBody rest then some (-(Int.ofNat (natOfDigits (rest.filter (fun c => c ≠ '_')))))
      else none
  | _ =>
      if validIntBody cs then some (Int.ofNat (natOfDigits (cs.filter (fun c => c ≠ '_'))))
      else none

/-- The %d directive of strptime applied to one dot-delimited segment:
the CPython pattern 3[01] or [12]d or 0[1-9] or [1-9] or space[1-9],
required to consume the whole segment. -/
def matchD (s : String) : Option Nat :=
  match s.toList with
  | [c] => if '1' ≤ c ∧ c ≤ '9' then some (c.toNat - 48) else none
  | [c1, c2] =>
      if c1 = '3' ∧ (c2 = '0' ∨ c2 = '1') then some (30 + (c2.toNat - 48))
      else if (c1 = '1' ∨ c1 = '2') ∧ c2.isDigit then
        some (10 * (c1.toNat - 48) + (c2.toNat - 48))
      else if c1 = '0' ∧ '1' ≤ c2 ∧ c2 ≤ '9' then some (c2.toNat - 48)
      else if c1 = ' ' ∧ '1' ≤ c2 ∧ c2 ≤ '9' then some (c2.toNat - 48)
      else none
  | _ => none

/-- The %m directive of strptime on one segment: 1[0-2] or 0[1-9] or [1-9]. -/
def matchM (s : String) : Option Nat :=
  match s.toList with
  | [c] => if '1' ≤ c ∧ c ≤ '9' then some (c.toNat - 48) else none
  | [c1, c2] =>
      if c1 = '1' ∧ (c2 = '0' ∨ c2 = '1' ∨ c2 = '2') then some (10 + (c2.toNat - 48))
      else if c1 = '0' ∧ '1' ≤ c2 ∧ c2 ≤ '9' then some (c2.toNat - 48)
      else none
  | _ => none

/-- The %Y directive of strptime: exactly four digits. -/
def matchY4 (s : String) : Option Nat :=
  match s.toList with
  | [a, b, c, d] =>
      if a.isDigit ∧ b.isDigit ∧ c.isDigit ∧ d.isDigit then
        some (natOfDigits [a, b, c, d])
      else none
  | _ => none

/-- The %y directive of strptime: exactly two digits, 00-68 mapped to
2000-2068 and 69-99 mapped to 1969-1999 (the CPython rule). -/
def matchY2 (s : String) : Option Nat :=
  match s.toList with
  | [a, b] =>
      if a.isDigit ∧ b.isDigit then
        let y := natOfDigits [a, b]
        some (if y ≤ 68 then 2000 + y else 1900 + y)
      else none
  | _ => none

/-- Gregorian leap year rule used by datetime. -/
def isLeap (y : Nat) : Bool :=
  (y % 4 = 0 && y % 100 ≠ 0) || y % 400 = 0

/-- Days in a month, as validated by the datetime constructor. -/
def daysInMonth (y m : Nat) : Nat :=
  if m = 2 then (if isLeap y then 29 else 28)
  else if m = 4 ∨ m = 6 ∨ m = 9 ∨ m = 11 then 30
  else 31

/-- Model of datetime.strptime with format d.m.Y (fourDigit true) or d.m.y
(fourDigit false): the literal dots force the three directives to each
consume one dot-delimited segment in full, and the datetime constructor
then validates the calendar date.  Returns (year, month, day). -/
def strptimeDM (s : String) (fourDigit : Bool) : Option (Nat × Nat × Nat) :=
  match pySplit s '.' with
  | [ds, ms, ys] =>
      match matchD ds, matchM ms, (if fourDigit then matchY4 ys else matchY2 ys) with
      | some d, some m, some y =>
          if 1 ≤ y ∧ d ≤ daysInMonth y m then some (y, m, d) else none
      | _, _, _ => none
  | _ => none

/-- Zero pad to two digits, as strftime %m and %d do. -/
def pad2 (n : Nat) : String :=
  if n < 10 then "0" ++ toString n else toString n

/-- Zero pad to four digits, as strftime %Y does. -/
def pad4 (n : Nat) : String :=
  if n < 10 then "000" ++ toString n
  else if n < 100 then "00" ++ toString n
  else if n < 1000 then "0" ++ toString n
  else toString n

/-- strftime with format Y-m-dTH:M:SZ at zero time of day. -/
def fmtZ (y m d : Nat) : String :=
  pad4 y ++ "-" ++ pad2 m ++ "-" ++ pad2 d ++ "T00:00:00Z"

/-- Model of csv_handler.ParsedRow.parse_due_date.  The first component is
the returned value (none models Python None); the second is true when the
invalid-date warning is logged.  The four-digit-year format is tried first,
the two-digit-year format second; an empty (after strip) string is silent,
any other unparsable string warns. -/
def parse_due_date (s : String) : Option String × Bool :=
  match strptimeDM s true with
  | some (y, m, d) => (some (fmtZ y m d), false)
  | none =>
      match strptimeDM s false with
      | some (y, m, d) => (some (fmtZ y m d), false)
      | none =>
          if pyStrip s = "" then (none, false) else (none, true)

/-- Model of csv_handler.ParsedRow after construction. -/
structure ParsedRow where
  path : String
  code : String
  awarded : Int
  due : Option String
  deliverable : Bool
  status : ProductStatusEnum
  tags : List String
  thumbnail_upload : Option Upload
deriving DecidableEq

/-- Status conversion from ParsedRow.__init__: strip, upper, empty or
ACTIVE to ACTIVE, COMPLETED, CANCELED, anything else defaults to ACTIVE. -/
def parseStatus (s : String) : ProductStatusEnum :=
  let t := pyUpper (pyStrip s)
  if t = "" ∨ t = "ACTIVE" then ProductStatusEnum.ACTIVE
  else if t = "COMPLETED" then ProductStatusEnum.COMPLETED
  else if t = "CANCELED" then ProductStatusEnum.CANCELED
  else ProductStatusEnum.ACTIVE

/-- Conversion of the awarded column in ParsedRow.__init__:
int(csv_row.awarded) if csv_row.awarded else 0.  A nonempty string that
int() rejects raises ValueError, modelled as the error case. -/
def awardedOf (s : String) : Except PyErr Int :=
  if s = "" then Except.ok 0
  else
    match pyInt s with
    | some n => Except.ok n
    | none => Except.error PyErr.valueError

/-- Model of ParsedRow.__init__.  The thumbnail filesystem resolution
(path join, existence check, MIME guess) is abstracted into the
environment rt, applied to the stripped picture field when nonempty. -/
def mkParsedRow (rt : String → Option Upload) (c : CsvRow) : Except PyErr ParsedRow :=
  match awardedOf c.awarded with
  | Except.error e => Except.error e
  | Except.ok aw =>
      Except.ok
        { path := c.path
          code := c.code
          awarded := aw
          due := (parse_due_date c.due).1
          deliverable := c.deliverable == "TRUE"
          status := parseStatus c.status
          tags := ((pySplit c.tags ' ').map pyStrip).filter (fun t => t ≠ "")
          thumbnail_upload :=
            if pyStrip c.picture ≠ "" then rt (pyStrip c.picture) else none }

/-- Model of the product tree of csv_handler: the group constructor is
ProductGroupNode (name and insertion-ordered children mapping) and the
product constructor is ProductNode (name and parsed row data). -/
inductive PNode where
  | group (name : String) (children : List (String × PNode))
  | product (name : String) (product_data : ParsedRow)

/-- Lookup in the insertion-ordered children mapping (Python dict member
access by key). -/
def lookupA (ch : List (String × PNode)) (k : String) : Option PNode :=
  match ch with
  | [] => none
  | (n, v) :: rest => if n = k then some v else lookupA rest k

/-- Replacement of the value at an existing key, keeping its position
(Python dict assignment for a present key). -/
def updateA (ch : List (String × PNode)) (k : String) (v : PNode) : List (String × PNode) :=
  match ch with
  | [] => []
  | (n, w) :: rest => if n = k then (n, v) :: rest else (n, w) :: updateA rest k v

/-- Model of the path-walking and insertion loop of parse_csv_file for one
validated row, starting at the given node with the remaining path parts.
Looking up a member of a ProductNode raises AttributeError (a ProductNode
has no children attribute); a present path segment is entered whatever its
kind; a missing segment creates a fresh group; at the end the product is
inserted unless the code is already present, in which case the duplicate
is dropped and the tree is returned unchanged.  ParsedRow construction
happens only at actual insertion and can raise ValueError. -/
def insertRecord (rt : String → Option Upload) (c : CsvRow) :
    PNode → List String → Except PyErr PNode
  | PNode.product _ _, _ => Except.error PyErr.attributeError
  | PNode.group gn ch, [] =>
      match lookupA ch c.code with
      | some _ => Except.ok (PNode.group gn ch)
      | none =>
          match mkParsedRow rt c with
          | Except.error e => Except.error e
          | Except.ok pr =>
              Except.ok (PNode.group gn (ch ++ [(c.code, PNode.product c.code pr)]))
  | PNode.group gn ch, part :: rest =>
      match lookupA ch part with
      | some child =>
          match insertRecord rt c child rest with
          | Except.error e => Except.error e
          | Except.ok child2 => Except.ok (PNode.group gn (updateA ch part child2))
      | none =>
          match insertRecord rt c (PNode.group part []) rest with
          | Except.error e => Except.error e
          | Except.ok child2 => Except.ok (PNode.group gn (ch ++ [(part, child2)]))

/-- Model of the per-row body of parse_csv_file: pydantic validation
failure skips the row (inner except), a missing code skips the row, and
otherwise the path is split on the slash and the record inserted. -/
def processRow (rt : String → Option Upload) (root : PNode) (r : RawRow) :
    Except PyErr PNode :=
  match validateRow r with
  | none => Except.ok root
  | some c =>
      if c.code = "" then Except.ok root
      else insertRecord rt c root (pySplit c.path '/')

/-- Model of the row loop of parse_csv_file: any PyErr escaping a row
aborts the loop (it is not a ValidationError, so only the outer except
catches it). -/
def parseRows (rt : String → Option Upload) : List RawRow → PNode → Except PyErr PNode
  | [], root => Except.ok root
  | r :: rest, root =>
      match processRow rt root r with
      | Except.error e => Except.error e
      | Except.ok root2 => parseRows rt rest root2

/-- Model of parse_csv_file.  The file argument is the outcome of opening
and decoding the CSV file: an unreadable or undecodable file is the error
case.  Any exception, from the file or escaping the row loop, is caught by
the outer except and turned into none. -/
def parse_csv_file (rt : String → Option Upload) (file : Except Unit (List RawRow)) :
    Option PNode :=
  match file with
  | Except.error _ => none
  | Except.ok rows =>
      match parseRows rt rows (PNode.group "root" []) with
      | Except.error _ => none
      | Except.ok root => some root

/-- Model of main.ExistingItem: the remote item returned by
check_if_exists. -/
structure ExistingItem where
  kind : ProductKind
  id : String
  code : String
  parentId : Option String
deriving DecidableEq

/-- Model of puzzle.input_types.StringsUpdate as used for the tag list:
an explicit set replacement. -/
structure StringsUpdate where
  set : List String
deriving DecidableEq

/-- Model of puzzle.client.ProductAdd with the fields the importer passes;
fields the call site omits stay at their defaults. -/
structure ProductAdd where
  projectId : String
  parentId : Option String
  code : String
  kind : ProductKind
  description : Option String := none
  status : Option ProductStatusEnum := none
  dueDate : Option String := none
  estimation : Option Int := none
  deliverable : Option Bool := none
  thumbnail : Option Upload := none
  tags : List String := []
deriving DecidableEq

/-- Model of puzzle.client.ProductChange as built by update_product: these
six fields and nothing else are sent. -/
structure ProductChange where
  status : ProductStatusEnum
  dueDate : Option String
  estimation : Int
  deliverable : Bool
  thumbnail : Option Upload
  tags : StringsUpdate
deriving DecidableEq

/-- Observable steps of a reconciliation run: the four gateway calls
(lookup, group create, product create, product update), the logged
outcomes (conflict, skip), and the logged dry-run suppressions. -/
inductive Event where
  | lookup (parent_ids : List String) (code : String)
  | conflict (code : String) (found expected : ProductKind)
  | skip (code : String)
  | group_create (p : ProductAdd)
  | product_create (p : ProductAdd)
  | products_update (project_id : String) (product_ids : List String) (change : ProductChange)
  | dry_run_group (code : String)
  | dry_run_product (code : String)
  | dry_run_update (code : String)
deriving DecidableEq

/-- True for the three mutating gateway calls. -/
def isMutationEvent : Event → Bool
  | Event.group_create _ => true
  | Event.product_create _ => true
  | Event.products_update _ _ _ => true
  | _ => false

/-- True for the two create calls. -/
def isCreateEvent : Event → Bool
  | Event.group_create _ => true
  | Event.product_create _ => true
  | _ => false

/-- True for any gateway call, lookups included. -/
def isGatewayCall (e : Event) : Bool :=
  isMutationEvent e || (match e with | Event.lookup _ _ => true | _ => false)

/-- Model of the importer run configuration: the fields of PuzzleImporter
and the two UI checkboxes read during a run. -/
structure ImporterCfg where
  selected_project_id : Option String
  csv_file_path : Option String
  update_mode : Bool
  dry_run : Bool

/-- Abstract remote gateway for the selected project: responses to the
descendant lookup (keyed by the parent_ids argument) and to the group
create mutation (keyed by parent and code); the error case models a raised
network or GraphQL exception.  The responses to product create and product
update do not influence control flow and are not needed. -/
structure Gateway where
  get_product_descendants : List String → Except Unit (List ExistingItem)
  product_create_id : Option String → String → Except Unit (Option String)

/-- The parent_ids argument built by check_if_exists:
[parent_id] if parent_id else [], with Python truthiness (None and the
empty string both give the empty list). -/
def parentIdsOf : Option String → List String
  | none => []
  | some p => if p = "" then [] else [p]

/-- Model of PuzzleImporter.check_if_exists: query the direct descendants
of the parent, return the first one whose code matches, and turn any
raised exception into None, the same value as not found. -/
def check_if_exists (env : Gateway) (code : String) (parent_id : Option String) :
    Option ExistingItem :=
  match env.get_product_descendants (parentIdsOf parent_id) with
  | Except.error _ => none
  | Except.ok items => items.find? (fun d => d.code == code)

/-- Expected kind of a tree node in the conflict check of
generate_mutation_queries. -/
def childKind : PNode → ProductKind
  | PNode.group _ _ => ProductKind.GROUP
  | PNode.product _ _ => ProductKind.PRODUCT

/-- Model of PuzzleImporter.create_product_group: events emitted and the
returned id.  Without a selected project nothing happens; in dry-run the
call is suppressed and None returned; otherwise the mutation is issued and
a raised exception or an id-less response both yield None. -/
def create_product_group (cfg : ImporterCfg) (env : Gateway) (gname : String)
    (parent_id : Option String) : List Event × Option String :=
  match cfg.selected_project_id with
  | none => ([], none)
  | some pid =>
      if cfg.dry_run then ([Event.dry_run_group gname], none)
      else
        ([Event.group_create
            { projectId := pid, parentId := parent_id, code := gname,
              kind := ProductKind.GROUP, description := none, tags := [] }],
         match env.product_create_id parent_id gname with
         | Except.error _ => none
         | Except.ok r => r)

/-- Model of PuzzleImporter.create_product: events emitted.  Without a
selected project or a csv file nothing happens; in dry-run the call is
suppressed; otherwise the mutation carrying the parsed record is issued
(raised exceptions are caught and change nothing observable here). -/
def create_product (cfg : ImporterCfg) (nname : String) (dat : ParsedRow)
    (parent_id : Option String) : List Event :=
  match cfg.selected_project_id with
  | none => []
  | some pid =>
      match cfg.csv_file_path with
      | none => []
      | some _ =>
          if cfg.dry_run then [Event.dry_run_product nname]
          else
            [Event.product_create
              { projectId := pid, parentId := parent_id,
                status := some dat.status, dueDate := dat.due,
                estimation := some dat.awarded, deliverable := some dat.deliverable,
                code := nname, kind := ProductKind.PRODUCT,
                thumbnail := dat.thumbnail_upload, tags := dat.tags }]

/-- Model of PuzzleImporter.update_product: events emitted.  The change
carries status, due date, estimation, deliverable flag, thumbnail and the
tag set replacement, and the call updates the single existing id. -/
def update_product (cfg : ImporterCfg) (nname : String) (dat : ParsedRow)
    (existing_id : String) : List Event :=
  match cfg.selected_project_id with
  | none => []
  | some pid =>
      match cfg.csv_file_path with
      | none => []
      | some _ =>
          if cfg.dry_run then [Event.dry_run_update nname]
          else
            [Event.products_update pid [existing_id]
              { status := dat.status, dueDate := dat.due,
                estimation := dat.awarded, deliverable := dat.deliverable,
                thumbnail := dat.thumbnail_upload,
                tags := { set := dat.tags } }]

mutual

/-- Steps taken for one child of generate_mutation_queries after its
existence lookup: conflict on kind mismatch (subtree not entered), update
for an existing product in update mode, skip otherwise with recursion into
an existing group under the existing remote id, and creation when absent
with recursion into a group only when a new id was produced.  The two
recursion sites inline the body of generate_mutation_queries, which
re-checks the selected project. -/
def process_child_tail (cfg : ImporterCfg) (env : Gateway) (child_name : String)
    (node : PNode) (parent_id : Option String) : List Event :=
  match check_if_exists env child_name parent_id with
  | some item =>
      if item.kind ≠ childKind node then
        [Event.conflict child_name item.kind (childKind node)]
      else
        match node with
        | PNode.product nname dat =>
            if cfg.update_mode then update_product cfg nname dat item.id
            else [Event.skip child_name]
        | PNode.group _ ch =>
            Event.skip child_name ::
              (match cfg.selected_project_id with
               | none => []
               | some _ => process_children cfg env ch (some item.id))
  | none =>
      match node with
      | PNode.group gname ch =>
          let res := create_product_group cfg env gname parent_id
          res.1 ++
            (match res.2 with
             | some new_id =>
                 (match cfg.selected_project_id with
                  | none => []
                  | some _ => process_children cfg env ch (some new_id))
             | none => [])
      | PNode.product nname dat => create_product cfg nname dat parent_id

/-- The child loop of generate_mutation_queries: every child is looked up
first, then handled by process_child_tail, then ones following siblings. -/
def process_children (cfg : ImporterCfg) (env : Gateway) :
    List (String × PNode) → Option String → List Event
  | [], _ => []
  | (child_name, node) :: rest, parent_id =>
      (Event.lookup (parentIdsOf parent_id) child_name ::
        process_child_tail cfg env child_name node parent_id) ++
      process_children cfg env rest parent_id

end

/-- Events of one child: the lookup followed by its process_child_tail. -/
def process_child (cfg : ImporterCfg) (env : Gateway) (child_name : String)
    (node : PNode) (parent_id : Option String) : List Event :=
  Event.lookup (parentIdsOf parent_id) child_name ::
    process_child_tail cfg env child_name node parent_id

/-- Model of PuzzleImporter.generate_mutation_queries applied to the
children mapping of a group node: nothing happens without a selected
project. -/
def generate_mutation_queries (cfg : ImporterCfg) (env : Gateway)
    (children : List (String × PNode)) (parent_id : Option String) : List Event :=
  match cfg.selected_project_id with
  | none => []
  | some _ => process_children cfg env children parent_id

mutual

/-- Specification-side check for one node of the round-trip scenario: the
found item has the expected kind and, for a group, the children in turn
all exist under the existing remote id. -/
def remote_has_node (env : Gateway) (node : PNode) (item : ExistingItem) : Bool :=
  (item.kind == childKind node) &&
  (match node with
   | PNode.group _ ch => remote_has_tree env ch (some item.id)
   | PNode.product _ _ => true)

/-- Specification-side predicate for the round-trip claim: every tree node
already exists under its corresponding remote parent, found by its code
with the expected kind, and recursively so for the children of groups
under the existing remote id. -/
def remote_has_tree (env : Gateway) :
    List (String × PNode) → Option String → Bool
  | [], _ => true
  | (child_name, node) :: rest, parent_id =>
      (match check_if_exists env child_name parent_id with
       | none => false
       | some item => remote_has_node env node item) &&
      remote_has_tree env rest parent_id

end

mutual

/-- Specification-side expected steps below one skipped child: recursion
for an existing group, nothing for a product. -/
def allSkipNode (env : Gateway) (node : PNode) (item : ExistingItem) : List Event :=
  match node with
  | PNode.group _ ch => allSkipTrace env ch (some item.id)
  | PNode.product _ _ => []

/-- Specification-side description of the trace expected in the round-trip
scenario: per child one lookup and one skip, with existing groups recursed
into under the remote id that the lookup returned. -/
def allSkipTrace (env : Gateway) :
    List (String × PNode) → Option String → List Event
  | [], _ => []
  | (child_name, node) :: rest, parent_id =>
      Event.lookup (parentIdsOf parent_id) child_name ::
      Event.skip child_name ::
      ((match check_if_exists env child_name parent_id with
        | some item => allSkipNode env node item
        | none => []) ++
       allSkipTrace env rest parent_id)

end

/-- Specification-side path lookup in an existing tree, entering only
present children and requiring every non-final step to stay inside the
tree. -/
def findAt : PNode → List String → Option PNode
  | node, [] => some node
  | PNode.group _ ch, p :: rest =>
      (match lookupA ch p with
       | some child => findAt child rest
       | none => none)
  | PNode.product _ _, _ :: _ => none

/-!  Concrete fixtures used by witnesses and counterexamples.  -/

/-- Thumbnail resolution environment of a directory with no usable image
files. -/
def rtNone : String → Option Upload := fun _ => none

/-- Row with the given path, code and awarded value and all other columns
empty. -/
def mkRow (p cd aw : String) : CsvRow :=
  { path := p, code := cd, awarded := aw, due := "", picture := "",
    deliverable := "", status := "", tags := "" }

/-- Raw row in which every column is present. -/
def rawOf (c : CsvRow) : RawRow :=
  { path := some c.path, code := some c.code, awarded := some c.awarded,
    due := some c.due, picture := some c.picture,
    deliverable := some c.deliverable, status := some c.status,
    tags := some c.tags }

/-- Raw row missing its path column: pydantic validation fails. -/
def rawMissing : RawRow :=
  { path := none, code := some "c", awarded := some "", due := some "",
    picture := some "", deliverable := some "", status := some "",
    tags := some "" }

/-- Parsed row produced by mkRow "a" "p" "". -/
def prW : ParsedRow :=
  { path := "a", code := "p", awarded := 0, due := none, deliverable := false,
    status := ProductStatusEnum.ACTIVE, tags := [], thumbnail_upload := none }

/-- Parsed row produced by mkRow "" "x" "". -/
def prEmptyPath : ParsedRow :=
  { path := "", code := "x", awarded := 0, due := none, deliverable := false,
    status := ProductStatusEnum.ACTIVE, tags := [], thumbnail_upload := none }

/-- Remote group named a at root level. -/
def itemGA : ExistingItem :=
  { kind := ProductKind.GROUP, id := "idA", code := "a", parentId := none }

/-- Remote product named p under idA. -/
def itemPP : ExistingItem :=
  { kind := ProductKind.PRODUCT, id := "idP", code := "p", parentId := some "idA" }

/-- Remote product named a at root level (the wrong kind for a group named
a). -/
def itemPA : ExistingItem :=
  { kind := ProductKind.PRODUCT, id := "idX", code := "a", parentId := none }

/-- Gateway of a remote state that already contains group a with product p
inside it. -/
def gwW : Gateway :=
  { get_product_descendants := fun pids =>
      match pids with
      | [] => Except.ok [itemGA]
      | ["idA"] => Except.ok [itemPP]
      | _ => Except.ok []
    product_create_id := fun _ _ => Except.ok (some "newid") }

/-- Gateway whose root level holds a PRODUCT named a. -/
def gwConflict : Gateway :=
  { get_product_descendants := fun _ => Except.ok [itemPA]
    product_create_id := fun _ _ => Except.ok none }

/-- Gateway whose lookups always raise. -/
def gwErr : Gateway :=
  { get_product_descendants := fun _ => Except.error ()
    product_create_id := fun _ _ => Except.ok (some "gid") }

/-- Base run configuration: project selected, csv selected, no update
mode, no dry run. -/
def cfgW : ImporterCfg :=
  { selected_project_id := some "proj", csv_file_path := some "f.csv",
    update_mode := false, dry_run := false }

/-- Base configuration with dry run enabled. -/
def cfgDry : ImporterCfg := { cfgW with dry_run := true }

/-- Base configuration with update mode enabled. -/
def cfgUpd : ImporterCfg := { cfgW with update_mode := true }

/-- Tree with one group a holding one product p. -/
def chW : List (String × PNode) :=
  [("a", PNode.group "a" [("p", PNode.product "p" prW)])]

/-- Tree already holding group a with product p, the duplicate fixture. -/
def rootDup : PNode :=
  PNode.group "root" [("a", PNode.group "a" [("p", PNode.product "p" prW)])]

/-!  Helper lemmas.  -/

/-- Validation of a complete raw row recovers the CsvRow. -/
theorem validate_rawOf (c : CsvRow) : validateRow (rawOf c) = some c := rfl

/-- Replacing the value at a present key by the value already there leaves
the children mapping unchanged. -/
theorem updateA_self :
    ∀ (ch : List (String × PNode)) (k : String) (v : PNode),
      lookupA ch k = some v → updateA ch k v = ch := by
  intro ch
  induction ch with
  | nil => intro k v h; simp [lookupA] at h
  | cons hd rest ih =>
      intro k v h
      obtain ⟨n, w⟩ := hd
      by_cases hk : n = k
      · subst hk
        simp [lookupA] at h
        simp [updateA, h]
      · simp [lookupA, hk] at h
        simp [updateA, hk, ih k v h]

/-- Inserting a record whose target parent already maps its code leaves
the whole tree unchanged: the walk only re-enters existing groups and the
duplicate insertion is dropped. -/
theorem insert_present_unchanged (rt : String → Option Upload) (c : CsvRow) :
    ∀ (parts : List String) (node : PNode) (gname : String)
      (ch : List (String × PNode)) (first : PNode),
      findAt node parts = some (PNode.group gname ch) →
      lookupA ch c.code = some first →
      insertRecord rt c node parts = Except.ok node := by
  intro parts
  induction parts with
  | nil =>
      intro node gname ch first hfind hdup
      simp [findAt] at hfind
      subst hfind
      simp [insertRecord, hdup]
  | cons p rest ih =>
      intro node gname ch first hfind hdup
      cases node with
      | product nname dat => simp [findAt] at hfind
      | group gn2 ch2 =>
          cases hl : lookupA ch2 p with
          | none => simp [findAt, hl] at hfind
          | some child =>
              simp only [findAt, hl] at hfind
              have hrec := ih child gname ch first hfind hdup
              simp [insertRecord, hl, hrec, updateA_self ch2 p child hl]

/-!  C5: behaviour of parse_due_date on the four documented inputs.  -/

/-- C5: parse_due_date maps 21.06.2025 and 21.06.25 to the same zero-time
Zulu timestamp (the four-digit-year format is tried first and the
two-digit-year format is the fallback), returns absent with no warning for
the empty string, and absent with a warning for not-a-date. -/
theorem C5_parse_due_date_cases :
    parse_due_date "21.06.2025" = (some "2025-06-21T00:00:00Z", false) ∧
    parse_due_date "21.06.25" = (some "2025-06-21T00:00:00Z", false) ∧
    parse_due_date "" = (none, false) ∧
    parse_due_date "not-a-date" = (none, true) :=
  ⟨by decide, by decide, by decide, by decide⟩

/-!  C7: the awarded field.  -/

/-- C7 counterexample: the parsed awarded value can be negative (-5 from
the raw value -5), and an unparsable nonempty raw value does not default
to 0 but raises ValueError, so the row is not parsed into a record at
all. -/
theorem C7_counterexample :
    Except.map ParsedRow.awarded (mkParsedRow rtNone (mkRow "a" "q" "-5")) =
      Except.ok (-5 : Int) ∧
    mkParsedRow rtNone (mkRow "a" "q" "abc") = Except.error PyErr.valueError :=
  ⟨rfl, rfl⟩

/-- C7 amended: the parsed awarded value is 0 when the raw value is empty,
equals the (possibly negative) integer value of the raw string when int()
accepts it, and a nonempty raw value that int() rejects raises ValueError
instead of defaulting, so the row fails to parse. -/
theorem C7_awarded_amended (rt : String → Option Upload) (c : CsvRow) :
    (c.awarded = "" →
        Except.map ParsedRow.awarded (mkParsedRow rt c) = Except.ok 0) ∧
    (∀ n : Int, c.awarded ≠ "" → pyInt c.awarded = some n →
        Except.map ParsedRow.awarded (mkParsedRow rt c) = Except.ok n) ∧
    (c.awarded ≠ "" → pyInt c.awarded = none →
        mkParsedRow rt c = Except.error PyErr.valueError) := by
  refine ⟨?_, ?_, ?_⟩
  · intro h
    simp [mkParsedRow, awardedOf, h, Except.map]
  · intro n h hn
    simp [mkParsedRow, awardedOf, h, hn, Except.map]
  · intro h hn
    simp [mkParsedRow, awardedOf, h, hn]

/-- C7 amended witness at the concrete rows of the counterexample and the
empty and parsable cases. -/
theorem C7_awarded_amended_witness :
    ((mkRow "a" "q" "").awarded = "" ∧
      Except.map ParsedRow.awarded (mkParsedRow rtNone (mkRow "a" "q" "")) =
        Except.ok 0) ∧
    ((mkRow "a" "q" "7").awarded ≠ "" ∧ pyInt (mkRow "a" "q" "7").awarded = some 7 ∧
      Except.map ParsedRow.awarded (mkParsedRow rtNone (mkRow "a" "q" "7")) =
        Except.ok 7) ∧
    ((mkRow "a" "q" "abc").awarded ≠ "" ∧ pyInt (mkRow "a" "q" "abc").awarded = none ∧
      mkParsedRow rtNone (mkRow "a" "q" "abc") = Except.error PyErr.valueError) :=
  ⟨⟨rfl, (C7_awarded_amended rtNone (mkRow "a" "q" "")).1 rfl⟩,
   ⟨by decide, by decide,
     (C7_awarded_amended rtNone (mkRow "a" "q" "7")).2.1 7 (by decide) (by decide)⟩,
   ⟨by decide, by decide,
     (C7_awarded_amended rtNone (mkRow "a" "q" "abc")).2.2 (by decide) (by decide)⟩⟩

/-!  C6: fatality taxonomy of parse_csv_file.  -/

/-- C6 counterexample: a perfectly readable file whose single row has the
unparsable awarded value abc makes parse_csv_file return the failure value
None, although the input file itself was read and decoded fine. -/
theorem C6_counterexample :
    parse_csv_file rtNone (Except.ok [rawOf (mkRow "a" "q" "abc")]) = none :=
  rfl

/-- C6 amended: parse_csv_file fails on an unreadable or undecodable file,
and also when a row raises an error the per-row handler does not catch:
schema validation failures and rows with an empty code skip only that row,
but any error escaping the insertion (the ValueError of an unparsable
nonempty awarded value, or the AttributeError of a path segment colliding
with an existing product leaf) aborts the loop, so later rows are not
processed and the whole parse returns the failure value. -/
theorem C6_fatality_amended (rt : String → Option Upload) :
    (parse_csv_file rt (Except.error ()) = none) ∧
    (∀ (r : RawRow) (rows : List RawRow) (root : PNode),
        validateRow r = none →
        parseRows rt (r :: rows) root = parseRows rt rows root) ∧
    (∀ (r : RawRow) (c : CsvRow) (rows : List RawRow) (root : PNode),
        validateRow r = some c → c.code = "" →
        parseRows rt (r :: rows) root = parseRows rt rows root) ∧
    (∀ (r : RawRow) (c : CsvRow) (rows : List RawRow) (root : PNode) (e : PyErr),
        validateRow r = some c → c.code ≠ "" →
        insertRecord rt c root (pySplit c.path '/') = Except.error e →
        parseRows rt (r :: rows) root = Except.error e) := by
  refine ⟨rfl, ?_, ?_, ?_⟩
  · intro r rows root h
    simp [parseRows, processRow, h]
  · intro r c rows root h hc
    simp [parseRows, processRow, h, hc]
  · intro r c rows root e h hc hi
    simp [parseRows, processRow, h, hc, hi]

/-- C6 amended witness: a row with a missing column and a row with an
empty code are skipped with the rest still processed, while the
ValueError row and the leaf-collision row abort the parse. -/
theorem C6_fatality_amended_witness :
    (validateRow rawMissing = none ∧
      parseRows rtNone (rawMissing :: [rawOf (mkRow "a" "p" "")]) (PNode.group "root" []) =
        parseRows rtNone [rawOf (mkRow "a" "p" "")] (PNode.group "root" [])) ∧
    (validateRow (rawOf (mkRow "a" "" "")) = some (mkRow "a" "" "") ∧
      (mkRow "a" "" "").code = "" ∧
      parseRows rtNone (rawOf (mkRow "a" "" "") :: [rawOf (mkRow "a" "p" "")])
          (PNode.group "root" []) =
        parseRows rtNone [rawOf (mkRow "a" "p" "")] (PNode.group "root" [])) ∧
    (validateRow (rawOf (mkRow "a" "q" "abc")) = some (mkRow "a" "q" "abc") ∧
      (mkRow "a" "q" "abc").code ≠ "" ∧
      insertRecord rtNone (mkRow "a" "q" "abc") rootDup
          (pySplit (mkRow "a" "q" "abc").path '/') = Except.error PyErr.valueError ∧
      parseRows rtNone (rawOf (mkRow "a" "q" "abc") :: [rawOf (mkRow "a" "r" "")])
          rootDup = Except.error PyErr.valueError) ∧
    (insertRecord rtNone (mkRow "a/p" "q" "") rootDup
          (pySplit (mkRow "a/p" "q" "").path '/') = Except.error PyErr.attributeError ∧
      parseRows rtNone (rawOf (mkRow "a/p" "q" "") :: [rawOf (mkRow "a" "r" "")])
          rootDup = Except.error PyErr.attributeError) :=
  ⟨⟨by decide, (C6_fatality_amended rtNone).2.1 rawMissing _ _ (by decide)⟩,
   ⟨by decide, by decide,
     (C6_fatality_amended rtNone).2.2.1 _ (mkRow "a" "" "") _ _ (by decide) (by decide)⟩,
   ⟨by decide, by decide, rfl,
     (C6_fatality_amended rtNone).2.2.2 _ (mkRow "a" "q" "abc") _ _ _ (by decide)
       (by decide) rfl⟩,
   ⟨rfl,
     (C6_fatality_amended rtNone).2.2.2 _ (mkRow "a/p" "q" "") _ _ _ (by decide)
       (by decide) rfl⟩⟩

/-!  C8: duplicate codes under the same parent.  -/

/-- C8: a row whose code is already present under its parent path is
discarded: the tree is returned unchanged, so exactly one node for that
code remains and the first occurrence is never overwritten. -/
theorem C8_duplicate_first_wins (rt : String → Option Upload) (root : PNode)
    (row : RawRow) (c : CsvRow) (gname : String) (ch : List (String × PNode))
    (first : PNode)
    (hv : validateRow row = some c) (hc : c.code ≠ "")
    (hfind : findAt root (pySplit c.path '/') = some (PNode.group gname ch))
    (hdup : lookupA ch c.code = some first) :
    processRow rt root row = Except.ok root := by
  simp [processRow, hv, hc]
  exact insert_present_unchanged rt c (pySplit c.path '/') root gname ch first hfind hdup

/-- C8 witness: re-inserting product p under group a leaves the tree
unchanged. -/
theorem C8_duplicate_first_wins_witness :
    validateRow (rawOf (mkRow "a" "p" "77")) = some (mkRow "a" "p" "77") ∧
    (mkRow "a" "p" "77").code ≠ "" ∧
    findAt rootDup (pySplit (mkRow "a" "p" "77").path '/') =
      some (PNode.group "a" [("p", PNode.product "p" prW)]) ∧
    lookupA [("p", PNode.product "p" prW)] (mkRow "a" "p" "77").code =
      some (PNode.product "p" prW) ∧
    processRow rtNone rootDup (rawOf (mkRow "a" "p" "77")) = Except.ok rootDup :=
  ⟨by decide, by decide, rfl, rfl,
   C8_duplicate_first_wins rtNone rootDup (rawOf (mkRow "a" "p" "77"))
     (mkRow "a" "p" "77") "a" [("p", PNode.product "p" prW)]
     (PNode.product "p" prW) (by decide) (by decide) rfl rfl⟩

/-!  C10: the empty path field.  -/

/-- C10: a record whose path field is the empty string is not placed
directly under root: splitting the empty string on the slash yields one
empty segment, a group literally named the empty string is created under
root, and the product is placed inside that group. -/
theorem C10_empty_path (rt : String → Option Upload) (c : CsvRow) (pr : ParsedRow)
    (hp : c.path = "") (hc : c.code ≠ "")
    (hmk : mkParsedRow rt c = Except.ok pr) :
    pySplit c.path '/' = [""] ∧
    processRow rt (PNode.group "root" []) (rawOf c) =
      Except.ok (PNode.group "root"
        [("", PNode.group "" [(c.code, PNode.product c.code pr)])]) := by
  constructor
  · rw [hp]
    decide
  · simp only [processRow, validate_rawOf, hc, if_neg hc, hp]
    simp [insertRecord, lookupA, hmk]

/-- C10 witness: the row with empty path and code x lands inside a group
named by the empty string. -/
theorem C10_empty_path_witness :
    (mkRow "" "x" "").path = "" ∧ (mkRow "" "x" "").code ≠ "" ∧
    mkParsedRow rtNone (mkRow "" "x" "") = Except.ok prEmptyPath ∧
    (pySplit (mkRow "" "x" "").path '/' = [""] ∧
      processRow rtNone (PNode.group "root" []) (rawOf (mkRow "" "x" "")) =
        Except.ok (PNode.group "root"
          [("", PNode.group ""
            [((mkRow "" "x" "").code, PNode.product (mkRow "" "x" "").code prEmptyPath)])])) :=
  ⟨rfl, by decide, rfl,
   C10_empty_path rtNone (mkRow "" "x" "") prEmptyPath rfl (by decide) rfl⟩

/-!  C2: kind-mismatch conflicts prune the whole subtree.  -/

/-- C2: when the remote lookup for a child returns an item of the wrong
kind, the events of that child are exactly its lookup followed by the
conflict report (the conflict is not a gateway call), nothing is emitted
for the child or its descendants beyond that single lookup, and the
siblings are processed exactly as before. -/
theorem C2_conflict_prunes (cfg : ImporterCfg) (env : Gateway) (child_name : String)
    (node : PNode) (rest : List (String × PNode)) (parent_id : Option String)
    (item : ExistingItem)
    (h1 : check_if_exists env child_name parent_id = some item)
    (h2 : item.kind ≠ childKind node) :
    process_children cfg env ((child_name, node) :: rest) parent_id =
      Event.lookup (parentIdsOf parent_id) child_name ::
      Event.conflict child_name item.kind (childKind node) ::
      process_children cfg env rest parent_id ∧
    isGatewayCall (Event.conflict child_name item.kind (childKind node)) = false := by
  constructor
  · cases node with
    | group gname ch => simp [process_children, process_child_tail, h1, h2]
    | product nname dat => simp [process_children, process_child_tail, h1, h2]
  · rfl

/-- C2 witness: a group named a whose remote counterpart is a PRODUCT. -/
theorem C2_conflict_prunes_witness :
    check_if_exists gwConflict "a" none = some itemPA ∧
    itemPA.kind ≠ childKind (PNode.group "a" []) ∧
    (process_children cfgW gwConflict [("a", PNode.group "a" [])] none =
        Event.lookup (parentIdsOf none) "a" ::
        Event.conflict "a" itemPA.kind (childKind (PNode.group "a" [])) ::
        process_children cfgW gwConflict [] none ∧
      isGatewayCall (Event.conflict "a" itemPA.kind (childKind (PNode.group "a" []))) = false) :=
  ⟨rfl, by decide,
   C2_conflict_prunes cfgW gwConflict "a" (PNode.group "a" []) [] none itemPA rfl
     (by decide)⟩

/-!  C4: update mode on an existing product.  -/

/-- C4: with update mode enabled and outside dry run, a product child whose
remote counterpart exists with kind PRODUCT produces exactly its lookup
followed by exactly one products-update call and no create call; the
update addresses the existing remote id and carries exactly the status,
due date, estimation, deliverable flag, thumbnail and tag set replacement
of the parsed record (the ProductChange payload has no other fields). -/
theorem C4_update_mode (cfg : ImporterCfg) (env : Gateway) (child_name nname : String)
    (dat : ParsedRow) (rest : List (String × PNode)) (parent_id : Option String)
    (item : ExistingItem) (pid f : String)
    (hp : cfg.selected_project_id = some pid)
    (hf : cfg.csv_file_path = some f)
    (hd : cfg.dry_run = false)
    (hu : cfg.update_mode = true)
    (h1 : check_if_exists env child_name parent_id = some item)
    (h2 : item.kind = ProductKind.PRODUCT) :
    process_children cfg env ((child_name, PNode.product nname dat) :: rest) parent_id =
      Event.lookup (parentIdsOf parent_id) child_name ::
      Event.products_update pid [item.id]
        { status := dat.status, dueDate := dat.due, estimation := dat.awarded,
          deliverable := dat.deliverable, thumbnail := dat.thumbnail_upload,
          tags := { set := dat.tags } } ::
      process_children cfg env rest parent_id := by
  simp [process_children, process_child_tail, h1, h2, childKind, hu, update_product,
    hp, hf, hd]

/-- C4 witness: the product p under the existing group idA is updated in
update mode. -/
theorem C4_update_mode_witness :
    cfgUpd.selected_project_id = some "proj" ∧
    cfgUpd.csv_file_path = some "f.csv" ∧
    cfgUpd.dry_run = false ∧
    cfgUpd.update_mode = true ∧
    check_if_exists gwW "p" (some "idA") = some itemPP ∧
    itemPP.kind = ProductKind.PRODUCT ∧
    process_children cfgUpd gwW [("p", PNode.product "p" prW)] (some "idA") =
      Event.lookup (parentIdsOf (some "idA")) "p" ::
      Event.products_update "proj" [itemPP.id]
        { status := prW.status, dueDate := prW.due, estimation := prW.awarded,
          deliverable := prW.deliverable, thumbnail := prW.thumbnail_upload,
          tags := { set := prW.tags } } ::
      process_children cfgUpd gwW [] (some "idA") :=
  ⟨rfl, rfl, rfl, rfl, rfl, rfl,
   C4_update_mode cfgUpd gwW "p" "p" prW [] (some "idA") itemPP "proj" "f.csv"
     rfl rfl rfl rfl rfl rfl⟩

/-!  C9: a lookup failure is indistinguishable from absence.  -/

/-- C9: when the descendants query raises, check_if_exists returns None
for every code, exactly the not-found answer, and the reconciler therefore
takes the creation path: outside dry run a product child gets a
product-create call for it right after its lookup, and a group child gets
a group-create call right after its lookup. -/
theorem C9_lookup_error_creates (cfg : ImporterCfg) (env : Gateway)
    (parent_id : Option String) (pid f : String)
    (hp : cfg.selected_project_id = some pid)
    (hf : cfg.csv_file_path = some f)
    (hd : cfg.dry_run = false)
    (herr : env.get_product_descendants (parentIdsOf parent_id) = Except.error ()) :
    (∀ code : String, check_if_exists env code parent_id = none) ∧
    (∀ (child_name nname : String) (dat : ParsedRow) (rest : List (String × PNode)),
        process_children cfg env ((child_name, PNode.product nname dat) :: rest) parent_id =
          Event.lookup (parentIdsOf parent_id) child_name ::
          Event.product_create
            { projectId := pid, parentId := parent_id, status := some dat.status,
              dueDate := dat.due, estimation := some dat.awarded,
              deliverable := some dat.deliverable, code := nname,
              kind := ProductKind.PRODUCT, thumbnail := dat.thumbnail_upload,
              tags := dat.tags } ::
          process_children cfg env rest parent_id) ∧
    (∀ (child_name gname : String) (ch rest : List (String × PNode)),
        (process_children cfg env ((child_name, PNode.group gname ch) :: rest) parent_id).take 2 =
          [Event.lookup (parentIdsOf parent_id) child_name,
           Event.group_create
             { projectId := pid, parentId := parent_id, code := gname,
               kind := ProductKind.GROUP, description := none, tags := [] }]) := by
  have ha : ∀ code : String, check_if_exists env code parent_id = none := by
    intro code
    simp [check_if_exists, herr]
  refine ⟨ha, ?_, ?_⟩
  · intro child_name nname dat rest
    simp [process_children, process_child_tail, ha, create_product, hp, hf, hd]
  · intro child_name gname ch rest
    simp [process_children, process_child_tail, ha, create_product_group, hp, hd]

/-- C9 witness: with a failing gateway the product q is created and the
group g is created, each right after its failed lookup. -/
theorem C9_lookup_error_creates_witness :
    cfgW.selected_project_id = some "proj" ∧
    cfgW.csv_file_path = some "f.csv" ∧
    cfgW.dry_run = false ∧
    gwErr.get_product_descendants (parentIdsOf none) = Except.error () ∧
    check_if_exists gwErr "q" none = none ∧
    process_children cfgW gwErr [("q", PNode.product "q" prW)] none =
      Event.lookup (parentIdsOf none) "q" ::
      Event.product_create
        { projectId := "proj", parentId := none, status := some prW.status,
          dueDate := prW.due, estimation := some prW.awarded,
          deliverable := some prW.deliverable, code := "q",
          kind := ProductKind.PRODUCT, thumbnail := prW.thumbnail_upload,
          tags := prW.tags } ::
      process_children cfgW gwErr [] none ∧
    (process_children cfgW gwErr [("g", PNode.group "g" [])] none).take 2 =
      [Event.lookup (parentIdsOf none) "g",
       Event.group_create
         { projectId := "proj", parentId := none, code := "g",
           kind := ProductKind.GROUP, description := none, tags := [] }] :=
  ⟨rfl, rfl, rfl, rfl,
   (C9_lookup_error_creates cfgW gwErr none "proj" "f.csv" rfl rfl rfl rfl).1 "q",
   (C9_lookup_error_creates cfgW gwErr none "proj" "f.csv" rfl rfl rfl rfl).2.1
     "q" "q" prW [],
   (C9_lookup_error_creates cfgW gwErr none "proj" "f.csv" rfl rfl rfl rfl).2.2
     "g" "g" [] []⟩

/-!  C1: round-trip idempotence.  -/

mutual

/-- Round-trip lemma for one found child: with matching kind, no update
mode and a selected project, the steps after the lookup are the skip and,
for a group, the recursion under the existing remote id. -/
theorem c1_tail_skip (cfg : ImporterCfg) (env : Gateway) (pid : String)
    (hp : cfg.selected_project_id = some pid) (hu : cfg.update_mode = false) :
    ∀ (child_name : String) (node : PNode) (item : ExistingItem)
      (parent_id : Option String),
      check_if_exists env child_name parent_id = some item →
      remote_has_node env node item = true →
      process_child_tail cfg env child_name node parent_id =
        Event.skip child_name :: allSkipNode env node item
  | child_name, PNode.product nname dat, item, parent_id, hc, hr => by
      simp [remote_has_node, childKind] at hr
      simp [process_child_tail, hc, hr, childKind, hu, allSkipNode]
  | child_name, PNode.group gname ch, item, parent_id, hc, hr => by
      simp [remote_has_node, childKind] at hr
      have hrec := c1_children_skip cfg env pid hp hu ch (some item.id) hr.2
      simp [process_child_tail, hc, hr.1, childKind, hp, hrec, allSkipNode]

/-- Round-trip lemma for a child list: when every node already exists
remotely with the right kind, the emitted events are exactly the
all-skip trace. -/
theorem c1_children_skip (cfg : ImporterCfg) (env : Gateway) (pid : String)
    (hp : cfg.selected_project_id = some pid) (hu : cfg.update_mode = false) :
    ∀ (ch : List (String × PNode)) (parent_id : Option String),
      remote_has_tree env ch parent_id = true →
      process_children cfg env ch parent_id = allSkipTrace env ch parent_id
  | [], _, _ => by simp [process_children, allSkipTrace]
  | (child_name, node) :: rest, parent_id, h => by
      rw [remote_has_tree] at h
      rw [Bool.and_eq_true] at h
      cases hc : check_if_exists env child_name parent_id with
      | none => rw [hc] at h; simp at h
      | some item =>
          rw [hc] at h
          have ht := c1_tail_skip cfg env pid hp hu child_name node item parent_id hc h.1
          have hr := c1_children_skip cfg env pid hp hu rest parent_id h.2
          simp [process_children, allSkipTrace, hc, ht, hr]

end

mutual

/-- The all-skip trace of an existing group node contains no create
event. -/
theorem allSkipNode_no_create (env : Gateway) :
    ∀ (node : PNode) (item : ExistingItem),
      (allSkipNode env node item).filter isCreateEvent = []
  | PNode.product _ _, _ => by simp [allSkipNode]
  | PNode.group _ ch, item => by
      have h := allSkipTrace_no_create env ch (some item.id)
      simp [allSkipNode, h]

/-- The all-skip trace of a child list contains no create event. -/
theorem allSkipTrace_no_create (env : Gateway) :
    ∀ (ch : List (String × PNode)) (parent_id : Option String),
      (allSkipTrace env ch parent_id).filter isCreateEvent = []
  | [], _ => by simp [allSkipTrace]
  | (child_name, node) :: rest, parent_id => by
      have h2 := allSkipTrace_no_create env rest parent_id
      cases hc : check_if_exists env child_name parent_id with
      | none => simp [allSkipTrace, hc, isCreateEvent, h2]
      | some item =>
          have h1 := allSkipNode_no_create env node item
          simp [allSkipTrace, hc, isCreateEvent, h1, h2]

end

/-- Every child of the list has its skip outcome in the all-skip trace. -/
theorem allSkipTrace_mem_skip (env : Gateway) :
    ∀ (ch : List (String × PNode)) (parent_id : Option String)
      (child_name : String) (node : PNode),
      (child_name, node) ∈ ch →
      Event.skip child_name ∈ allSkipTrace env ch parent_id := by
  intro ch
  induction ch with
  | nil => intro _ _ _ h; simp at h
  | cons hd rest ih =>
      intro parent_id child_name node h
      obtain ⟨n0, nd0⟩ := hd
      rcases List.mem_cons.mp h with heq | hmem
      · cases heq
        rw [allSkipTrace]
        exact List.mem_cons_of_mem _ (List.mem_cons_self _ _)
      · rw [allSkipTrace]
        refine List.mem_cons_of_mem _ (List.mem_cons_of_mem _ ?_)
        exact List.mem_append_right _ (ih parent_id child_name node hmem)

/-- C1: reconciling a tree whose nodes all already exist remotely with the
expected kinds, with update mode disabled, emits exactly the all-skip
trace: zero create calls, a skip outcome for every child, and existing
groups recursed into under the remote id found for them. -/
theorem C1_round_trip (cfg : ImporterCfg) (env : Gateway)
    (ch : List (String × PNode)) (parent_id : Option String) (pid : String)
    (hp : cfg.selected_project_id = some pid) (hu : cfg.update_mode = false)
    (hm : remote_has_tree env ch parent_id = true) :
    generate_mutation_queries cfg env ch parent_id = allSkipTrace env ch parent_id ∧
    (generate_mutation_queries cfg env ch parent_id).filter isCreateEvent = [] ∧
    (∀ (child_name : String) (node : PNode), (child_name, node) ∈ ch →
        Event.skip child_name ∈ generate_mutation_queries cfg env ch parent_id) := by
  have hg : generate_mutation_queries cfg env ch parent_id =
      process_children cfg env ch parent_id := by
    simp [generate_mutation_queries, hp]
  have hmain := c1_children_skip cfg env pid hp hu ch parent_id hm
  refine ⟨hg.trans hmain, ?_, ?_⟩
  · rw [hg, hmain]
    exact allSkipTrace_no_create env ch parent_id
  · intro child_name node hmem
    rw [hg, hmain]
    exact allSkipTrace_mem_skip env ch parent_id child_name node hmem

/-- C1 witness: the two-level tree a/p against the remote state that
already holds it. -/
theorem C1_round_trip_witness :
    cfgW.selected_project_id = some "proj" ∧
    cfgW.update_mode = false ∧
    remote_has_tree gwW chW none = true ∧
    (generate_mutation_queries cfgW gwW chW none = allSkipTrace gwW chW none ∧
      (generate_mutation_queries cfgW gwW chW none).filter isCreateEvent = [] ∧
      (∀ (child_name : String) (node : PNode), (child_name, node) ∈ chW →
          Event.skip child_name ∈ generate_mutation_queries cfgW gwW chW none)) :=
  ⟨rfl, rfl, by decide, C1_round_trip cfgW gwW chW none "proj" rfl rfl (by decide)⟩

/-!  C3: dry run never mutates.  -/

mutual

/-- Dry-run lemma for one child after its lookup: no mutation event is
emitted in any branch. -/
theorem dry_tail_no_mutation (cfg : ImporterCfg) (env : Gateway)
    (hd : cfg.dry_run = true) :
    ∀ (child_name : String) (node : PNode) (parent_id : Option String),
      (process_child_tail cfg env child_name node parent_id).filter isMutationEvent = []
  | child_name, PNode.product nname dat, parent_id => by
      cases hc : check_if_exists env child_name parent_id with
      | some item =>
          by_cases hk : item.kind ≠ childKind (PNode.product nname dat)
          · simp [process_child_tail, hc, hk, isMutationEvent]
          · cases hum : cfg.update_mode with
            | false => simp [process_child_tail, hc, hk, hum, isMutationEvent]
            | true =>
                cases hps : cfg.selected_project_id with
                | none => simp [process_child_tail, hc, hk, hum, update_product, hps]
                | some pid =>
                    cases hfs : cfg.csv_file_path with
                    | none =>
                        simp [process_child_tail, hc, hk, hum, update_product, hps, hfs]
                    | some f =>
                        simp [process_child_tail, hc, hk, hum, update_product, hps, hfs,
                          hd, isMutationEvent]
      | none =>
          cases hps : cfg.selected_project_id with
          | none => simp [process_child_tail, hc, create_product, hps]
          | some pid =>
              cases hfs : cfg.csv_file_path with
              | none => simp [process_child_tail, hc, create_product, hps, hfs]
              | some f =>
                  simp [process_child_tail, hc, create_product, hps, hfs, hd,
                    isMutationEvent]
  | child_name, PNode.group gname ch, parent_id => by
      cases hc : check_if_exists env child_name parent_id with
      | some item =>
          by_cases hk : item.kind ≠ childKind (PNode.group gname ch)
          · simp [process_child_tail, hc, hk, isMutationEvent]
          · cases hps : cfg.selected_project_id with
            | none => simp [process_child_tail, hc, hk, hps, isMutationEvent]
            | some pid =>
                have hrec := dry_children_no_mutation cfg env hd ch (some item.id)
                simp [process_child_tail, hc, hk, hps, isMutationEvent, hrec]
      | none =>
          cases hps : cfg.selected_project_id with
          | none => simp [process_child_tail, hc, create_product_group, hps]
          | some pid =>
              simp [process_child_tail, hc, create_product_group, hps, hd,
                isMutationEvent]

/-- Dry-run lemma for a child list: the whole trace is free of mutation
events. -/
theorem dry_children_no_mutation (cfg : ImporterCfg) (env : Gateway)
    (hd : cfg.dry_run = true) :
    ∀ (ch : List (String × PNode)) (parent_id : Option String),
      (process_children cfg env ch parent_id).filter isMutationEvent = []
  | [], _ => by simp [process_children]
  | (child_name, node) :: rest, parent_id => by
      have h1 := dry_tail_no_mutation cfg env hd child_name node parent_id
      have h2 := dry_children_no_mutation cfg env hd rest parent_id
      simp [process_children, isMutationEvent, h1, h2]

end

/-- Every child of the list gets its existence lookup in the trace. -/
theorem process_children_mem_lookup (cfg : ImporterCfg) (env : Gateway) :
    ∀ (ch : List (String × PNode)) (parent_id : Option String)
      (child_name : String) (node : PNode),
      (child_name, node) ∈ ch →
      Event.lookup (parentIdsOf parent_id) child_name ∈
        process_children cfg env ch parent_id := by
  intro ch
  induction ch with
  | nil => intro _ _ _ h; simp at h
  | cons hd rest ih =>
      intro parent_id child_name node h
      obtain ⟨n0, nd0⟩ := hd
      rcases List.mem_cons.mp h with heq | hmem
      · cases heq
        rw [process_children]
        exact List.mem_append_left _ (List.mem_cons_self _ _)
      · rw [process_children]
        exact List.mem_append_right _ (ih parent_id child_name node hmem)

/-- C3: with the dry-run flag set, reconciliation emits zero create-group,
create-product and update-product calls for every tree and every remote
state, while the existence lookup of every visited child is still
performed. -/
theorem C3_dry_run_no_mutation (cfg : ImporterCfg) (env : Gateway)
    (ch : List (String × PNode)) (parent_id : Option String) (pid : String)
    (hd : cfg.dry_run = true) (hp : cfg.selected_project_id = some pid) :
    (generate_mutation_queries cfg env ch parent_id).filter isMutationEvent = [] ∧
    (∀ (child_name : String) (node : PNode), (child_name, node) ∈ ch →
        Event.lookup (parentIdsOf parent_id) child_name ∈
          generate_mutation_queries cfg env ch parent_id) := by
  have hg : generate_mutation_queries cfg env ch parent_id =
      process_children cfg env ch parent_id := by
    simp [generate_mutation_queries, hp]
  constructor
  · rw [hg]
    exact dry_children_no_mutation cfg env hd ch parent_id
  · intro child_name node hmem
    rw [hg]
    exact process_children_mem_lookup cfg env ch parent_id child_name node hmem

/-- C3 witness: dry run over the a/p tree against the remote state holding
group a, with the claim applied at the concrete child a. -/
theorem C3_dry_run_no_mutation_witness :
    cfgDry.dry_run = true ∧
    cfgDry.selected_project_id = some "proj" ∧
    ((generate_mutation_queries cfgDry gwW chW none).filter isMutationEvent = [] ∧
      (∀ (child_name : String) (node : PNode), (child_name, node) ∈ chW →
          Event.lookup (parentIdsOf none) child_name ∈
            generate_mutation_queries cfgDry gwW chW none)) :=
  ⟨rfl, rfl, C3_dry_run_no_mutation cfgDry gwW chW none "proj" rfl rfl⟩

end PuzzleProducts
